import Mathlib

/-
Verification of the client-side authentication flow of the repository
(src/my-auth-app/src/components/AuthPanel.jsx and Dashboard.jsx).

The AuthPanel React component is embedded as an explicit state machine:
its useState hooks become fields of a record, each user-visible control
(tab buttons, forgot-password link, back-to-login buttons, input fields,
submit button) becomes an event, and the async submission is split into a
dispatch step and a response step so that states with an outstanding
request are first-class.  Availability of each event follows the JSX
guards that decide whether the corresponding control is rendered or
enabled.  The axios response interceptor and the catch clause of
handleSubmit are embedded as pure message-derivation functions, and
localStorage under the key named token is a field of the state record.
-/

namespace AuthApp

/-- Form tabs of AuthPanel: activeTab holds the string login or signup
(AuthPanel.jsx line 89). -/
inductive Tab
  | login
  | signup
deriving DecidableEq, Repr

/-- Names of the five controlled inputs of the form, the keys of the
formData object (AuthPanel.jsx lines 91-97). -/
inductive FieldName
  | name
  | email
  | password
  | confirmPassword
  | resetEmail
deriving DecidableEq, Repr

/-- The formData state object (AuthPanel.jsx lines 91-97). -/
structure FormData where
  name : String
  email : String
  password : String
  confirmPassword : String
  resetEmail : String
deriving DecidableEq, Repr

/-- Read the field of formData selected by a field name, as the JS
dynamic access formData[name] does. -/
def FormData.get (fd : FormData) : FieldName → String
  | .name => fd.name
  | .email => fd.email
  | .password => fd.password
  | .confirmPassword => fd.confirmPassword
  | .resetEmail => fd.resetEmail

/-- Functional update of one field of formData, the spread
setFormData(prev => (...prev, [name]: value)) of AuthPanel.jsx line 106. -/
def FormData.set (fd : FormData) : FieldName → String → FormData
  | .name, v => { fd with name := v }
  | .email, v => { fd with email := v }
  | .password, v => { fd with password := v }
  | .confirmPassword, v => { fd with confirmPassword := v }
  | .resetEmail, v => { fd with resetEmail := v }

/-- The field-keyed validation-error map built by validateForm.  The JS
object has at most one entry per field name, so it is embedded as one
optional message per field; an absent key is none (AuthPanel.jsx line 98
and lines 118-150). -/
structure Errors where
  name : Option String
  email : Option String
  password : Option String
  confirmPassword : Option String
  resetEmail : Option String
deriving DecidableEq, Repr

/-- The empty error map, the object literal used at lines 98, 199 and 207
of AuthPanel.jsx. -/
def noErrors : Errors := ⟨none, none, none, none, none⟩

/-- Dynamic lookup errors[name] (AuthPanel.jsx line 109). -/
def Errors.get (e : Errors) : FieldName → Option String
  | .name => e.name
  | .email => e.email
  | .password => e.password
  | .confirmPassword => e.confirmPassword
  | .resetEmail => e.resetEmail

/-- The delete newErrors[name] operation of AuthPanel.jsx line 112:
removing one key from the error map. -/
def Errors.clear (e : Errors) : FieldName → Errors
  | .name => { e with name := none }
  | .email => { e with email := none }
  | .password => { e with password := none }
  | .confirmPassword => { e with confirmPassword := none }
  | .resetEmail => { e with resetEmail := none }

/-- Whether the error map has no entry for any field: the JS test
Object.keys(newErrors).length === 0 of AuthPanel.jsx line 149. -/
def errorsEmpty (e : Errors) : Bool :=
  e.name.isNone && e.email.isNone && e.password.isNone &&
    e.confirmPassword.isNone && e.resetEmail.isNone

/-- Complement of the JS whitespace class: the character class matched by
the regex atom backslash-S. -/
def isNonSpace (c : Char) : Bool := !c.isWhitespace

/-- Shallow embedding of the JS regex test used by validateForm
(AuthPanel.jsx lines 124 and 137): the pattern is nonspace-plus, at-sign,
nonspace-plus, dot, nonspace-plus, searched anywhere in the string.  A
match exists iff there are positions i lt j holding an at-sign and a dot
with a non-space character immediately before the at-sign, at least one
character strictly between them with every such character non-space, and a
non-space character immediately after the dot. -/
def testEmailPattern (s : String) : Bool :=
  let cs := s.toList
  let n := cs.length
  (List.range n).any fun i =>
    (List.range n).any fun j =>
      (cs.getD i ' ' == '@') && (cs.getD j ' ' == '.') &&
      decide (i + 1 < j) && decide (0 < i) &&
      isNonSpace (cs.getD (i - 1) ' ') &&
      decide (j + 1 < n) && isNonSpace (cs.getD (j + 1) ' ') &&
      ((List.range n).all fun k =>
        !(decide (i < k) && decide (k < j)) || isNonSpace (cs.getD k ' '))

/-- The JS String.prototype.trim call used by validateForm, embedded
over the character list: whitespace is dropped from both ends.  (The
core String.trim is avoided because its substring loops do not reduce
inside the kernel.) -/
def jsTrim (s : String) : String :=
  String.mk (((s.toList.dropWhile Char.isWhitespace).reverse.dropWhile
    Char.isWhitespace).reverse)

/-- The validateForm callback of AuthPanel.jsx lines 118-150, written per
resulting key of the newErrors object.  In forgot-password mode only
resetEmail is checked; otherwise name and confirmPassword are checked in
signup mode, and email and password are checked in both login and signup
modes.  An empty JS string and a whitespace-only trimmed string are falsy,
which is where the trim and emptiness tests come from. -/
def validateForm (showForgotPassword : Bool) (activeTab : Tab)
    (fd : FormData) : Errors where
  resetEmail :=
    if showForgotPassword then
      if jsTrim fd.resetEmail = "" then some "Email is required"
      else if !testEmailPattern fd.resetEmail then some "Email is invalid"
      else none
    else none
  name :=
    if !showForgotPassword && (activeTab == Tab.signup)
        && (jsTrim fd.name == "") then some "Name is required"
    else none
  confirmPassword :=
    if !showForgotPassword && (activeTab == Tab.signup)
        && (fd.password != fd.confirmPassword) then
      some "Passwords do not match"
    else none
  email :=
    if !showForgotPassword then
      if jsTrim fd.email = "" then some "Email is required"
      else if !testEmailPattern fd.email then some "Email is invalid"
      else none
    else none
  password :=
    if !showForgotPassword then
      if fd.password = "" then some "Password is required"
      else if fd.password.length < 6 then
        some "Password must be at least 6 characters"
      else none
    else none

/-- The handleInputChange callback of AuthPanel.jsx lines 104-116: store
the new value of the edited field, and when the error map holds a truthy
entry for that field (a JS string is truthy iff non-empty) delete that
entry. -/
def handleInputChange (f : FieldName) (v : String) (fd : FormData)
    (errs : Errors) : FormData × Errors :=
  (fd.set f v,
   if (errs.get f).getD "" != "" then errs.clear f else errs)

/-- The error.code values distinguished by the axios response interceptor
of AuthPanel.jsx lines 32-34; every other code value behaves like the
final branches. -/
inductive ErrorCode
  | errNetwork
  | econnaborted
  | other
deriving DecidableEq, Repr

/-- The data object of an error response: its optional msg string
(error.response.data with optional chaining at AuthPanel.jsx line 39). -/
structure ResponseData where
  msg : Option String
deriving DecidableEq, Repr

/-- An axios rejection as the interceptor sees it: the code, the optional
server response, and whether a request object is present (AuthPanel.jsx
lines 28-48). -/
structure AxiosError where
  code : ErrorCode
  response : Option ResponseData
  request : Bool
deriving DecidableEq, Repr

/-- The customMessage assigned by the response interceptor of
AuthPanel.jsx lines 28-48, with the JS or-fallback at line 39 turning an
absent or empty msg into the generic server-error text. -/
def customMessage (e : AxiosError) : String :=
  if e.code = ErrorCode.errNetwork then
    "Unable to connect to the server. Please make sure the backend is running."
  else if e.code = ErrorCode.econnaborted then
    "Request timed out. Please try again."
  else
    match e.response with
    | some d =>
      match d.msg with
      | some m => if m = "" then "Server error occurred." else m
      | none => "Server error occurred."
    | none =>
      if e.request then
        "No response from server. Please check your network connection."
      else "An error occurred while processing your request."

/-- The message stored into authError by the catch clause of handleSubmit
(AuthPanel.jsx line 189): customMessage, else the server msg, else the
generic fallback, each JS or-step skipping falsy (empty) strings. -/
def displayedError (e : AxiosError) : String :=
  let cm := customMessage e
  if cm != "" then cm
  else
    match e.response with
    | some d =>
      match d.msg with
      | some m => if m != "" then m else "An error occurred"
      | none => "An error occurred"
    | none => "An error occurred"

/-- Outcome of the Dashboard component of Dashboard.jsx: either a
redirect via window.location.href, or a render of the placeholder user
name and email (the createdAt field is the wall clock and is outside the
embedded data). -/
inductive DashView
  | redirect (target : String)
  | render (userName userEmail : String)
deriving DecidableEq, Repr

/-- The effect of the Dashboard useEffect of Dashboard.jsx lines 8-25:
read the token from localStorage; a falsy value (absent key, or present
with the empty string) redirects to the root, otherwise the fixed
placeholder user is rendered. -/
def dashboard (token : Option String) : DashView :=
  match token with
  | none => DashView.redirect "/"
  | some t =>
    if t = "" then DashView.redirect "/"
    else DashView.render "Demo User" "user@example.com"

/-- An outbound request dispatched by handleSubmit, recording the
endpoint and payload chosen at AuthPanel.jsx lines 162-177: the
forgot-password post with the resetEmail, the login post with email and
password, or the register post with name, email and password. -/
inductive ApiRequest
  | forgotPassword (email : String)
  | login (email password : String)
  | register (name email password : String)
deriving DecidableEq, Repr

/-- Resolution of an outstanding request: a fulfilled response carrying
the token field of its data (read at AuthPanel.jsx line 180; unused by
the forgot-password flow), or a rejection carrying the axios error seen
by the catch clause. -/
inductive ApiOutcome
  | success (token : String)
  | failure (err : AxiosError)
deriving DecidableEq, Repr

/-- The client state: the seven useState hooks of AuthPanel.jsx lines
89-101, plus the token entry of localStorage, the list of outstanding
requests (the dispatch and the resolution of the awaited post are
separate steps), a count of every request ever dispatched, and the
window.location.href override performed on login or signup success. -/
structure ClientState where
  activeTab : Tab
  showForgotPassword : Bool
  formData : FormData
  errors : Errors
  isLoading : Bool
  resetSuccess : Bool
  authError : String
  token : Option String
  pending : List ApiRequest
  sentCount : Nat
  navigated : Option String
deriving DecidableEq, Repr

/-- The initial mount of AuthPanel: the useState initial values of
AuthPanel.jsx lines 89-101, no stored token, no outstanding request. -/
def initState : ClientState :=
  { activeTab := Tab.login
    showForgotPassword := false
    formData := ⟨"", "", "", "", ""⟩
    errors := noErrors
    isLoading := false
    resetSuccess := false
    authError := ""
    token := none
    pending := []
    sentCount := 0
    navigated := none }

/-- User and network events the mounted component can receive.  Each user
event corresponds to one rendered control of the JSX; respond is the
resolution of the awaited api.post. -/
inductive Event
  | clickTab (t : Tab)
  | clickForgot
  | clickBack
  | input (f : FieldName) (v : String)
  | submit
  | respond (o : ApiOutcome)

/-- Whether the input for a field is currently rendered: no form at all
on the reset-success panel (AuthPanel.jsx line 288), only resetEmail in
forgot-password mode (line 308), otherwise email and password always and
name and confirmPassword only on the signup tab (lines 325 and 372). -/
def fieldAvailable (s : ClientState) (f : FieldName) : Bool :=
  if s.resetSuccess then false
  else if s.showForgotPassword then f == FieldName.resetEmail
  else
    match f with
    | .resetEmail => false
    | .name => s.activeTab == Tab.signup
    | .confirmPassword => s.activeTab == Tab.signup
    | .email => true
    | .password => true

/-- The disabled attribute of the submit button: disabled while a
request is in flight (AuthPanel.jsx line 394). -/
def submitDisabled (s : ClientState) : Bool := s.isLoading

/-- The request handleSubmit dispatches for the current mode
(AuthPanel.jsx lines 162-177). -/
def mkRequest (s : ClientState) : ApiRequest :=
  if s.showForgotPassword then ApiRequest.forgotPassword s.formData.resetEmail
  else
    match s.activeTab with
    | Tab.login => ApiRequest.login s.formData.email s.formData.password
    | Tab.signup =>
      ApiRequest.register s.formData.name s.formData.email s.formData.password

/-- Effects of the resolution of a request: on fulfilment the
forgot-password flow sets resetSuccess (AuthPanel.jsx line 168) while the
login and register flows store the token and navigate to the dashboard
(lines 180 and 185); on rejection the catch clause stores the derived
message into authError (line 189).  The finally clause has already reset
isLoading in the caller. -/
def applyOutcome (s : ClientState) (r : ApiRequest) (o : ApiOutcome) :
    ClientState :=
  match o with
  | ApiOutcome.success tok =>
    match r with
    | ApiRequest.forgotPassword _ => { s with resetSuccess := true }
    | ApiRequest.login _ _ =>
      { s with token := some tok, navigated := some "/dashboard" }
    | ApiRequest.register _ _ _ =>
      { s with token := some tok, navigated := some "/dashboard" }
  | ApiOutcome.failure err => { s with authError := displayedError err }

/-- One step of the client state machine.  After a navigation the
component is gone and every event is inert.  Guards mirror the JSX: the
tab header only renders outside forgot-password mode (AuthPanel.jsx line
217); the forgot link only on the login tab outside forgot and success
modes (lines 417-428); the two back buttons on the success panel and in
forgot mode (lines 300 and 444-452); inputs per fieldAvailable; submit
only when the form is rendered and the button enabled.  handleSubmit
clears authError, stores the validateForm result, and when it is empty
sets isLoading and dispatches one request (lines 152-194). -/
def step (s : ClientState) (e : Event) : ClientState :=
  if s.navigated ≠ none then s
  else
    match e with
    | Event.clickTab t =>
      if s.showForgotPassword then s else { s with activeTab := t }
    | Event.clickForgot =>
      if !s.showForgotPassword && !s.resetSuccess
          && (s.activeTab == Tab.login) then
        { s with showForgotPassword := true, errors := noErrors,
                 resetSuccess := false, authError := "" }
      else s
    | Event.clickBack =>
      if s.resetSuccess || s.showForgotPassword then
        { s with showForgotPassword := false, errors := noErrors,
                 resetSuccess := false, authError := "" }
      else s
    | Event.input f v =>
      if fieldAvailable s f then
        let p := handleInputChange f v s.formData s.errors
        { s with formData := p.1, errors := p.2 }
      else s
    | Event.submit =>
      if s.resetSuccess || s.isLoading then s
      else
        let ne := validateForm s.showForgotPassword s.activeTab s.formData
        if errorsEmpty ne then
          { s with authError := "", errors := ne, isLoading := true,
                   pending := s.pending ++ [mkRequest s],
                   sentCount := s.sentCount + 1 }
        else { s with authError := "", errors := ne }
    | Event.respond o =>
      match s.pending with
      | [] => s
      | r :: rest =>
        applyOutcome { s with pending := rest, isLoading := false } r o

/-- Run the machine over a list of events from a given state. -/
def run (s : ClientState) (evs : List Event) : ClientState :=
  evs.foldl step s

/-- A state is reachable when some event sequence leads to it from the
initial mount. -/
def Reachable (s : ClientState) : Prop :=
  ∃ evs : List Event, run initState evs = s

/-- The four user-visible views of the panel. -/
inductive PanelView
  | login
  | signup
  | forgot
  | resetSuccess
deriving DecidableEq, Repr

/-- The view a state renders, following the JSX dispatch: the success
panel when resetSuccess holds (AuthPanel.jsx line 288), else the
forgot-password form (line 308), else the form of the active tab. -/
def view (s : ClientState) : PanelView :=
  if s.resetSuccess then PanelView.resetSuccess
  else if s.showForgotPassword then PanelView.forgot
  else
    match s.activeTab with
    | Tab.login => PanelView.login
    | Tab.signup => PanelView.signup

/-- The reset-success panel is rendered (AuthPanel.jsx line 288). -/
def successPanelShown (s : ClientState) : Bool := s.resetSuccess

/-- The forgot-password form is rendered (AuthPanel.jsx lines 288 and
308). -/
def forgotFormShown (s : ClientState) : Bool :=
  !s.resetSuccess && s.showForgotPassword

/-- The login form is rendered. -/
def loginFormShown (s : ClientState) : Bool :=
  !s.resetSuccess && !s.showForgotPassword && (s.activeTab == Tab.login)

/-- The signup form is rendered. -/
def signupFormShown (s : ClientState) : Bool :=
  !s.resetSuccess && !s.showForgotPassword && (s.activeTab == Tab.signup)

/-- Well-formed error maps never hold an entry whose message is the empty
string (every message validateForm writes is a fixed non-empty string). -/
def errsWF (e : Errors) : Bool :=
  (e.name != some "") && (e.email != some "") && (e.password != some "") &&
    (e.confirmPassword != some "") && (e.resetEmail != some "")

/-- The machine invariant used below: in forgot-password mode the active
tab is still login (the tab header is unreachable there), at most one
request is outstanding, no request is outstanding unless loading, and
the error map is well-formed. -/
def Inv (s : ClientState) : Prop :=
  (s.showForgotPassword = true → s.activeTab = Tab.login) ∧
  s.pending.length ≤ 1 ∧
  (s.isLoading = false → s.pending = []) ∧
  errsWF s.errors = true

/-- Sample state with one outstanding login request. -/
def loginPendingState : ClientState :=
  { initState with
    isLoading := true
    pending := [ApiRequest.login "user@example.com" "secret1"] }

/-- Sample state with one outstanding register request. -/
def registerPendingState : ClientState :=
  { initState with
    isLoading := true
    pending := [ApiRequest.register "Demo" "user@example.com" "secret1"] }

/-- Sample state with one outstanding forgot-password request. -/
def forgotPendingState : ClientState :=
  { initState with
    isLoading := true
    showForgotPassword := true
    pending := [ApiRequest.forgotPassword "user@example.com"] }

/-- Sample rejection carrying a server-provided credentials message. -/
def badCredsError : AxiosError :=
  ⟨ErrorCode.other, some ⟨some "Invalid credentials"⟩, true⟩

/-- Sample connection-refused rejection. -/
def connRefusedError : AxiosError := ⟨ErrorCode.errNetwork, none, true⟩

/-- Sample form data for the edit witness. -/
def sampleFd : FormData := FormData.mk "" "bad" "" "" ""

/-- Sample error map for the edit witness. -/
def sampleErrs : Errors :=
  Errors.mk none (some "Email is invalid") (some "Password is required")
    none none

/-- The six mode transitions listed by the specification. -/
def claimedEdges : List (PanelView × PanelView) :=
  [(PanelView.login, PanelView.signup),
   (PanelView.signup, PanelView.login),
   (PanelView.login, PanelView.forgot),
   (PanelView.forgot, PanelView.resetSuccess),
   (PanelView.forgot, PanelView.login),
   (PanelView.resetSuccess, PanelView.login)]

/-- The view transitions the code actually admits: the six listed ones
plus the three that arise when a back action (optionally followed by a
tab toggle) happens while a forgot-password request is in flight and the
request then succeeds. -/
def allowedEdges : List (PanelView × PanelView) :=
  claimedEdges ++
    [(PanelView.login, PanelView.resetSuccess),
     (PanelView.signup, PanelView.resetSuccess),
     (PanelView.resetSuccess, PanelView.signup)]

/-- Every message validateForm writes is a fixed non-empty string, so its
result is always well-formed. -/
theorem validateForm_wf (sfp : Bool) (tab : Tab) (fd : FormData) :
    errsWF (validateForm sfp tab fd) = true := by
  simp only [errsWF, validateForm]
  split_ifs <;> simp

/-- Editing a field keeps the error map well-formed. -/
theorem handleInputChange_wf (f : FieldName) (v : String) (fd : FormData)
    (errs : Errors) (h : errsWF errs = true) :
    errsWF (handleInputChange f v fd errs).2 = true := by
  simp only [handleInputChange]
  split_ifs with hg
  · cases f <;>
      simp_all [errsWF, Errors.clear]
  · exact h

/-- One step preserves the machine invariant. -/
theorem inv_step (s : ClientState) (e : Event) (h : Inv s) :
    Inv (step s e) := by
  obtain ⟨h1, h2, h3, h4⟩ := h
  cases e with
  | clickTab t =>
    simp only [step]
    split_ifs with hn hf
    · exact ⟨h1, h2, h3, h4⟩
    · exact ⟨h1, h2, h3, h4⟩
    · exact ⟨fun hc => absurd hc (by simp_all), h2, h3, h4⟩
  | clickForgot =>
    simp only [step]
    split_ifs with hn hf
    · exact ⟨h1, h2, h3, h4⟩
    · refine ⟨fun _ => ?_, h2, h3, by simp [noErrors, errsWF]⟩
      simp only [Bool.and_eq_true, Bool.not_eq_true', beq_iff_eq] at hf
      exact hf.2
    · exact ⟨h1, h2, h3, h4⟩
  | clickBack =>
    simp only [step]
    split_ifs with hn hf
    · exact ⟨h1, h2, h3, h4⟩
    · exact ⟨by simp, h2, h3, by simp [noErrors, errsWF]⟩
    · exact ⟨h1, h2, h3, h4⟩
  | input f v =>
    simp only [step]
    split_ifs with hn hf
    · exact ⟨h1, h2, h3, h4⟩
    · exact ⟨h1, h2, h3, handleInputChange_wf f v s.formData s.errors h4⟩
    · exact ⟨h1, h2, h3, h4⟩
  | submit =>
    simp only [step]
    split_ifs with hn hf he
    · exact ⟨h1, h2, h3, h4⟩
    · exact ⟨h1, h2, h3, h4⟩
    · have hload : s.isLoading = false := by
        simp only [Bool.or_eq_true, not_or, Bool.not_eq_true] at hf
        exact hf.2
      have hp : s.pending = [] := h3 hload
      refine ⟨h1, by simp [hp], by simp, validateForm_wf _ _ _⟩
    · exact ⟨h1, h2, h3, validateForm_wf _ _ _⟩
  | respond o =>
    simp only [step]
    split_ifs with hn
    · exact ⟨h1, h2, h3, h4⟩
    cases hp : s.pending with
    | nil => exact ⟨h1, h2, h3, h4⟩
    | cons r rest =>
      have hrest : rest = [] := by
        have := h2
        rw [hp] at this
        simpa using this
      subst hrest
      cases o with
      | success tok =>
        cases r <;>
          exact ⟨by simpa using h1, by simp [applyOutcome],
            by simp [applyOutcome], by simpa [applyOutcome] using h4⟩
      | failure err =>
        exact ⟨by simpa using h1, by simp [applyOutcome],
          by simp [applyOutcome], by simpa [applyOutcome] using h4⟩

/-- Running any event sequence preserves the invariant. -/
theorem inv_run (evs : List Event) :
    ∀ s : ClientState, Inv s → Inv (run s evs) := by
  induction evs with
  | nil => intro s h; exact h
  | cons e rest ih =>
    intro s h
    exact ih (step s e) (inv_step s e h)

/-- The initial state satisfies the invariant. -/
theorem inv_init : Inv initState := by
  refine ⟨by simp [initState], by simp [initState], by simp [initState], ?_⟩
  decide

/-- Every reachable state satisfies the invariant. -/
theorem reachable_inv (s : ClientState) (h : Reachable s) : Inv s := by
  obtain ⟨evs, hrun⟩ := h
  rw [← hrun]
  exact inv_run evs initState inv_init

/-- A server-provided message or its empty-string fallback is non-empty. -/
theorem serverMsg_ne_empty (m : String) :
    (if m = "" then "Server error occurred." else m) ≠ "" := by
  split_ifs with hm
  · decide
  · exact hm

/-- Every branch of the interceptor assigns a non-empty message. -/
theorem customMessage_ne_empty (e : AxiosError) : customMessage e ≠ "" := by
  rcases e with ⟨c, resp, req⟩
  simp only [customMessage]
  split_ifs with h1 h2 hreq
  · decide
  · decide
  · rcases resp with _ | ⟨_ | m⟩
    · decide
    · decide
    · exact serverMsg_ne_empty m
  · rcases resp with _ | ⟨_ | m⟩
    · decide
    · decide
    · exact serverMsg_ne_empty m

/-- Since the interceptor message is never empty, the JS or-chain of the
catch clause always surfaces exactly the interceptor message. -/
theorem displayedError_eq_customMessage (e : AxiosError) :
    displayedError e = customMessage e := by
  have h := customMessage_ne_empty e
  simp only [displayedError]
  rw [if_pos]
  simpa using h

/-- The message surfaced on failure is never the empty string, so it is
always rendered (AuthPanel.jsx line 277 displays every truthy authError). -/
theorem displayedError_ne_empty (e : AxiosError) : displayedError e ≠ "" := by
  rw [displayedError_eq_customMessage]
  exact customMessage_ne_empty e

/-- Invalid reset email yields a resetEmail entry in forgot mode. -/
theorem validateForm_resetEmail_invalid (tab : Tab) (fd : FormData)
    (h : jsTrim fd.resetEmail = "" ∨ testEmailPattern fd.resetEmail = false) :
    (validateForm true tab fd).resetEmail.isSome = true := by
  simp only [validateForm]
  rcases h with h | h
  · simp [h]
  · by_cases ht : jsTrim fd.resetEmail = "" <;> simp [ht, h]

/-- Invalid email yields an email entry outside forgot mode. -/
theorem validateForm_email_invalid (tab : Tab) (fd : FormData)
    (h : jsTrim fd.email = "" ∨ testEmailPattern fd.email = false) :
    (validateForm false tab fd).email.isSome = true := by
  simp only [validateForm]
  rcases h with h | h
  · simp [h]
  · by_cases ht : jsTrim fd.email = "" <;> simp [ht, h]

/-- An error map with a resetEmail entry is not empty. -/
theorem errorsEmpty_false_of_resetEmail (e : Errors)
    (h : e.resetEmail.isSome = true) : errorsEmpty e = false := by
  rcases e with ⟨n, em, pw, cpw, re⟩
  cases re <;> simp_all [errorsEmpty]

/-- An error map with an email entry is not empty. -/
theorem errorsEmpty_false_of_email (e : Errors)
    (h : e.email.isSome = true) : errorsEmpty e = false := by
  rcases e with ⟨n, em, pw, cpw, re⟩
  cases em <;> simp_all [errorsEmpty]

/-- An error map with a confirmPassword entry is not empty. -/
theorem errorsEmpty_false_of_confirmPassword (e : Errors)
    (h : e.confirmPassword.isSome = true) : errorsEmpty e = false := by
  rcases e with ⟨n, em, pw, cpw, re⟩
  cases cpw <;> simp_all [errorsEmpty]

/-- When validateForm reports an error, the submit handler neither
appends an outstanding request nor increments the dispatch count. -/
theorem submit_blocked (s : ClientState)
    (hne : errorsEmpty
      (validateForm s.showForgotPassword s.activeTab s.formData) = false) :
    (step s Event.submit).pending = s.pending ∧
      (step s Event.submit).sentCount = s.sentCount := by
  simp only [step]
  split_ifs with hn hf he
  · exact ⟨rfl, rfl⟩
  · exact ⟨rfl, rfl⟩
  · rw [hne] at he; simp at he
  · exact ⟨rfl, rfl⟩

/-- C2: a submission whose email field (resetEmail in forgot-password
mode, email otherwise) is empty or fails the basic pattern makes
validateForm record an error under that field and report failure, and
the submit event neither changes the outstanding-request list nor the
count of dispatched requests: no network call occurs. -/
theorem invalid_email_blocks_submission (s : ClientState) :
    (s.showForgotPassword = true →
      jsTrim s.formData.resetEmail = "" ∨
        testEmailPattern s.formData.resetEmail = false →
      (validateForm s.showForgotPassword s.activeTab
        s.formData).resetEmail.isSome = true ∧
      errorsEmpty (validateForm s.showForgotPassword s.activeTab
        s.formData) = false ∧
      (step s Event.submit).pending = s.pending ∧
      (step s Event.submit).sentCount = s.sentCount) ∧
    (s.showForgotPassword = false →
      jsTrim s.formData.email = "" ∨
        testEmailPattern s.formData.email = false →
      (validateForm s.showForgotPassword s.activeTab
        s.formData).email.isSome = true ∧
      errorsEmpty (validateForm s.showForgotPassword s.activeTab
        s.formData) = false ∧
      (step s Event.submit).pending = s.pending ∧
      (step s Event.submit).sentCount = s.sentCount) := by
  constructor
  · intro hsfp h
    have hsome : (validateForm s.showForgotPassword s.activeTab
        s.formData).resetEmail.isSome = true := by
      rw [hsfp]
      exact validateForm_resetEmail_invalid s.activeTab s.formData h
    have hne := errorsEmpty_false_of_resetEmail _ hsome
    exact ⟨hsome, hne, (submit_blocked s hne).1, (submit_blocked s hne).2⟩
  · intro hsfp h
    have hsome : (validateForm s.showForgotPassword s.activeTab
        s.formData).email.isSome = true := by
      rw [hsfp]
      exact validateForm_email_invalid s.activeTab s.formData h
    have hne := errorsEmpty_false_of_email _ hsome
    exact ⟨hsome, hne, (submit_blocked s hne).1, (submit_blocked s hne).2⟩

/-- Witness for C2: the spec scenario, forgot-password mode with the
malformed address bad-email, is rejected client-side with no dispatch. -/
theorem invalid_email_blocks_submission_witness :
    (validateForm true Tab.login
      (FormData.mk "" "" "" "" "bad-email")).resetEmail.isSome = true ∧
    errorsEmpty (validateForm true Tab.login
      (FormData.mk "" "" "" "" "bad-email")) = false ∧
    (step { initState with
      showForgotPassword := true
      formData := FormData.mk "" "" "" "" "bad-email" }
        Event.submit).pending = [] ∧
    (step { initState with
      showForgotPassword := true
      formData := FormData.mk "" "" "" "" "bad-email" }
        Event.submit).sentCount = 0 :=
  (invalid_email_blocks_submission
    { initState with
      showForgotPassword := true
      formData := FormData.mk "" "" "" "" "bad-email" }).1
    rfl (Or.inr (by decide))

/-- C3: the failed-submission message is derived with priority
network-unreachable, then timeout, then the server-provided message,
then the generic fallbacks; a connection-refused condition (axios code
ERR_NETWORK) yields the unable-to-connect message; the catch clause
stores exactly this derived message into authError; and the finally
clause leaves isLoading false after any completed submission, fulfilled
or rejected alike. -/
theorem failure_message_priority :
    (∀ e : AxiosError, e.code = ErrorCode.errNetwork →
      displayedError e =
        "Unable to connect to the server. Please make sure the backend is running.") ∧
    (∀ e : AxiosError, e.code = ErrorCode.econnaborted →
      displayedError e = "Request timed out. Please try again.") ∧
    (∀ (e : AxiosError) (m : String), e.code = ErrorCode.other →
      e.response = some ⟨some m⟩ → m ≠ "" → displayedError e = m) ∧
    (∀ e : AxiosError, e.code = ErrorCode.other → e.response = some ⟨none⟩ →
      displayedError e = "Server error occurred.") ∧
    (∀ e : AxiosError, e.code = ErrorCode.other → e.response = none →
      displayedError e = (if e.request then
        "No response from server. Please check your network connection."
      else "An error occurred while processing your request.")) ∧
    (∀ (s : ClientState) (r : ApiRequest) (rest : List ApiRequest)
        (err : AxiosError), s.navigated = none → s.pending = r :: rest →
      (step s (Event.respond (ApiOutcome.failure err))).authError
        = displayedError err) ∧
    (∀ (s : ClientState) (o : ApiOutcome), s.navigated = none →
      s.pending ≠ [] → (step s (Event.respond o)).isLoading = false) := by
  refine ⟨?_, ?_, ?_, ?_, ?_, ?_, ?_⟩
  · intro e h
    rw [displayedError_eq_customMessage]
    simp [customMessage, h]
  · intro e h
    rw [displayedError_eq_customMessage]
    rcases e with ⟨c, resp, req⟩
    simp only at h
    subst h
    simp [customMessage]
  · intro e m hc hr hm
    rw [displayedError_eq_customMessage]
    rcases e with ⟨c, resp, req⟩
    simp only at hc hr
    subst hc; subst hr
    simp [customMessage, hm]
  · intro e hc hr
    rw [displayedError_eq_customMessage]
    rcases e with ⟨c, resp, req⟩
    simp only at hc hr
    subst hc; subst hr
    simp [customMessage]
  · intro e hc hr
    rw [displayedError_eq_customMessage]
    rcases e with ⟨c, resp, req⟩
    simp only at hc hr
    subst hc; subst hr
    simp [customMessage]
  · intro s r rest err hnav hp
    simp [step, hnav, hp, applyOutcome]
  · intro s o hnav hp
    rcases hq : s.pending with _ | ⟨r, rest⟩
    · exact absurd hq hp
    · simp only [step, hnav]
      simp only [ne_eq, not_true_eq_false, if_false, hq]
      cases o with
      | success tok => cases r <;> rfl
      | failure err => rfl

/-- Witness for C3: a connection-refused rejection of an outstanding
login request surfaces the unable-to-connect message and resets
isLoading. -/
theorem failure_message_priority_witness :
    displayedError connRefusedError =
      "Unable to connect to the server. Please make sure the backend is running." ∧
    (step loginPendingState
      (Event.respond (ApiOutcome.failure connRefusedError))).authError
      = displayedError connRefusedError ∧
    (step loginPendingState
      (Event.respond (ApiOutcome.failure connRefusedError))).isLoading
      = false :=
  ⟨failure_message_priority.1 connRefusedError rfl,
   failure_message_priority.2.2.2.2.2.1 loginPendingState
     (ApiRequest.login "user@example.com" "secret1") [] connRefusedError
     rfl rfl,
   failure_message_priority.2.2.2.2.2.2 loginPendingState
     (ApiOutcome.failure connRefusedError) rfl (by decide)⟩

/-- C4: a rejected login submission stores a non-empty error message
into authError (so it is displayed) and leaves the stored token exactly
as it was: nothing is written to client storage. -/
theorem login_failure_keeps_token (s : ClientState) (em pw : String)
    (rest : List ApiRequest) (err : AxiosError)
    (hnav : s.navigated = none)
    (hp : s.pending = ApiRequest.login em pw :: rest) :
    (step s (Event.respond (ApiOutcome.failure err))).token = s.token ∧
    (step s (Event.respond (ApiOutcome.failure err))).authError
      = displayedError err ∧
    displayedError err ≠ "" := by
  have hstep : step s (Event.respond (ApiOutcome.failure err)) =
      applyOutcome { s with pending := rest, isLoading := false }
        (ApiRequest.login em pw) (ApiOutcome.failure err) := by
    simp [step, hnav, hp]
  rw [hstep]
  exact ⟨rfl, rfl, displayedError_ne_empty err⟩

/-- Witness for C4: rejecting the sample login request with an
invalid-credentials response keeps the (absent) token absent and
surfaces a non-empty message. -/
theorem login_failure_keeps_token_witness :
    (step loginPendingState
      (Event.respond (ApiOutcome.failure badCredsError))).token
      = loginPendingState.token ∧
    (step loginPendingState
      (Event.respond (ApiOutcome.failure badCredsError))).authError
      = displayedError badCredsError ∧
    displayedError badCredsError ≠ "" :=
  login_failure_keeps_token loginPendingState "user@example.com" "secret1"
    [] badCredsError rfl rfl

/-- C5: a fulfilled response to an outstanding login or register request
stores the returned token under the localStorage key named token and
navigates to the dashboard, while a fulfilled forgot-password request
flips the form to the reset-success panel and stores no token. -/
theorem success_effects :
    (∀ (s : ClientState) (em pw tok : String) (rest : List ApiRequest),
      s.navigated = none → s.pending = ApiRequest.login em pw :: rest →
      (step s (Event.respond (ApiOutcome.success tok))).token = some tok ∧
      (step s (Event.respond (ApiOutcome.success tok))).navigated
        = some "/dashboard") ∧
    (∀ (s : ClientState) (nm em pw tok : String) (rest : List ApiRequest),
      s.navigated = none →
      s.pending = ApiRequest.register nm em pw :: rest →
      (step s (Event.respond (ApiOutcome.success tok))).token = some tok ∧
      (step s (Event.respond (ApiOutcome.success tok))).navigated
        = some "/dashboard") ∧
    (∀ (s : ClientState) (em tok : String) (rest : List ApiRequest),
      s.navigated = none →
      s.pending = ApiRequest.forgotPassword em :: rest →
      (step s (Event.respond (ApiOutcome.success tok))).resetSuccess
        = true ∧
      (step s (Event.respond (ApiOutcome.success tok))).token = s.token) := by
  refine ⟨?_, ?_, ?_⟩
  · intro s em pw tok rest hnav hp
    simp [step, hnav, hp, applyOutcome]
  · intro s nm em pw tok rest hnav hp
    simp [step, hnav, hp, applyOutcome]
  · intro s em tok rest hnav hp
    simp [step, hnav, hp, applyOutcome]

/-- Witness for C5: the three fulfilment effects at the sample states. -/
theorem success_effects_witness :
    ((step loginPendingState
        (Event.respond (ApiOutcome.success "jwt1"))).token = some "jwt1" ∧
      (step loginPendingState
        (Event.respond (ApiOutcome.success "jwt1"))).navigated
        = some "/dashboard") ∧
    ((step registerPendingState
        (Event.respond (ApiOutcome.success "jwt2"))).token = some "jwt2" ∧
      (step registerPendingState
        (Event.respond (ApiOutcome.success "jwt2"))).navigated
        = some "/dashboard") ∧
    ((step forgotPendingState
        (Event.respond (ApiOutcome.success "ignored"))).resetSuccess
        = true ∧
      (step forgotPendingState
        (Event.respond (ApiOutcome.success "ignored"))).token
        = forgotPendingState.token) :=
  ⟨success_effects.1 loginPendingState "user@example.com" "secret1" "jwt1"
      [] rfl rfl,
   success_effects.2.1 registerPendingState "Demo" "user@example.com"
      "secret1" "jwt2" [] rfl rfl,
   success_effects.2.2 forgotPendingState "user@example.com" "ignored"
      [] rfl rfl⟩

/-- C6: in signup mode, any pair of differing password and
confirmPassword values makes validateForm record the do-not-match error
under confirmPassword, report failure, and block the dispatch. -/
theorem password_mismatch_blocks_signup (s : ClientState)
    (hsfp : s.showForgotPassword = false) (htab : s.activeTab = Tab.signup)
    (hmm : s.formData.password ≠ s.formData.confirmPassword) :
    (validateForm s.showForgotPassword s.activeTab
      s.formData).confirmPassword = some "Passwords do not match" ∧
    errorsEmpty (validateForm s.showForgotPassword s.activeTab
      s.formData) = false ∧
    (step s Event.submit).pending = s.pending ∧
    (step s Event.submit).sentCount = s.sentCount := by
  have hcp : (validateForm s.showForgotPassword s.activeTab
      s.formData).confirmPassword = some "Passwords do not match" := by
    rw [hsfp, htab]
    simp only [validateForm]
    simp [hmm]
  have hne := errorsEmpty_false_of_confirmPassword _ (by rw [hcp]; rfl)
  exact ⟨hcp, hne, (submit_blocked s hne).1, (submit_blocked s hne).2⟩

/-- Witness for C6: mismatched passwords abc123 and abc124 on the signup
tab are blocked with the do-not-match error. -/
theorem password_mismatch_blocks_signup_witness :
    (validateForm false Tab.signup
      (FormData.mk "Demo" "user@example.com" "abc123"
        "abc124" "")).confirmPassword = some "Passwords do not match" ∧
    errorsEmpty (validateForm false Tab.signup
      (FormData.mk "Demo" "user@example.com" "abc123" "abc124" ""))
      = false ∧
    (step { initState with
      activeTab := Tab.signup
      formData := FormData.mk "Demo" "user@example.com" "abc123" "abc124" "" }
        Event.submit).pending = [] ∧
    (step { initState with
      activeTab := Tab.signup
      formData := FormData.mk "Demo" "user@example.com" "abc123" "abc124" "" }
        Event.submit).sentCount = 0 :=
  password_mismatch_blocks_signup
    { initState with
      activeTab := Tab.signup
      formData := FormData.mk "Demo" "user@example.com" "abc123" "abc124" "" }
    rfl rfl (by decide)

/-- C10: the Dashboard output is independent of the content of any
non-empty stored token: all such tokens render the same fixed placeholder
user, and an absent token redirects to the root. -/
theorem dashboard_token_independent :
    (∀ t1 t2 : String, t1 ≠ "" → t2 ≠ "" →
      dashboard (some t1) = dashboard (some t2)) ∧
    (∀ t : String, t ≠ "" →
      dashboard (some t)
        = DashView.render "Demo User" "user@example.com") ∧
    dashboard none = DashView.redirect "/" := by
  refine ⟨?_, ?_, rfl⟩
  · intro t1 t2 h1 h2
    simp [dashboard, h1, h2]
  · intro t h
    simp [dashboard, h]

/-- Witness for C10: two distinct concrete tokens render identically. -/
theorem dashboard_token_independent_witness :
    dashboard (some "jwt-aaa") = dashboard (some "jwt-bbb") ∧
    dashboard (some "jwt-aaa")
      = DashView.render "Demo User" "user@example.com" ∧
    dashboard none = DashView.redirect "/" :=
  ⟨dashboard_token_independent.1 "jwt-aaa" "jwt-bbb" (by decide) (by decide),
   dashboard_token_independent.2.1 "jwt-aaa" (by decide),
   dashboard_token_independent.2.2⟩

/-- An optional message that is not the empty string and fails the JS
truthiness test is absent. -/
theorem option_empty_of_falsy (o : Option String) (hwf : o ≠ some "")
    (hg : ¬((o.getD "" != "") = true)) : o = none := by
  cases o with
  | none => rfl
  | some m => simp_all

/-- C8: every reachable error map is well-formed, and on any well-formed
error map editing a field removes exactly that field's entry, leaving
every other field's error entry and every other form field's value
unchanged, while storing the typed value into the edited field. -/
theorem edit_clears_only_edited_field :
    (∀ s : ClientState, Reachable s → errsWF s.errors = true) ∧
    (∀ (f : FieldName) (v : String) (fd : FormData) (errs : Errors),
      errsWF errs = true →
      (handleInputChange f v fd errs).2.get f = none ∧
      (∀ g : FieldName, g ≠ f →
        (handleInputChange f v fd errs).2.get g = errs.get g) ∧
      (handleInputChange f v fd errs).1.get f = v ∧
      (∀ g : FieldName, g ≠ f →
        (handleInputChange f v fd errs).1.get g = fd.get g)) := by
  constructor
  · exact fun s h => (reachable_inv s h).2.2.2
  · intro f v fd errs hwf
    rcases errs with ⟨n, em, pw, cpw, re⟩
    simp only [errsWF, Bool.and_eq_true, bne_iff_ne] at hwf
    obtain ⟨⟨⟨⟨h1, h2⟩, h3⟩, h4⟩, h5⟩ := hwf
    refine ⟨?_, ?_, ?_, ?_⟩
    · simp only [handleInputChange]
      split_ifs with hg
      · cases f <;> rfl
      · cases f <;> simp only [Errors.get] at hg ⊢
        · exact option_empty_of_falsy n h1 hg
        · exact option_empty_of_falsy em h2 hg
        · exact option_empty_of_falsy pw h3 hg
        · exact option_empty_of_falsy cpw h4 hg
        · exact option_empty_of_falsy re h5 hg
    · intro g hgf
      simp only [handleInputChange]
      split_ifs with hg
      · cases f <;> cases g <;> simp_all [Errors.get, Errors.clear]
      · rfl
    · cases f <;> rfl
    · intro g hgf
      cases f <;> cases g <;> simp_all [FormData.get, FormData.set,
        handleInputChange]

/-- Witness for C8: editing the email field clears the email error,
keeps the password error, stores the typed value, and keeps the name
field value. -/
theorem edit_clears_only_edited_field_witness :
    (handleInputChange FieldName.email "a@b.c" sampleFd
      sampleErrs).2.get FieldName.email = none ∧
    (handleInputChange FieldName.email "a@b.c" sampleFd
      sampleErrs).2.get FieldName.password
      = sampleErrs.get FieldName.password ∧
    (handleInputChange FieldName.email "a@b.c" sampleFd
      sampleErrs).1.get FieldName.email = "a@b.c" ∧
    (handleInputChange FieldName.email "a@b.c" sampleFd
      sampleErrs).1.get FieldName.name = sampleFd.get FieldName.name :=
  ⟨(edit_clears_only_edited_field.2 FieldName.email "a@b.c" sampleFd
      sampleErrs (by decide)).1,
   (edit_clears_only_edited_field.2 FieldName.email "a@b.c" sampleFd
      sampleErrs (by decide)).2.1 FieldName.password (by decide),
   (edit_clears_only_edited_field.2 FieldName.email "a@b.c" sampleFd
      sampleErrs (by decide)).2.2.1,
   (edit_clears_only_edited_field.2 FieldName.email "a@b.c" sampleFd
      sampleErrs (by decide)).2.2.2 FieldName.name (by decide)⟩

/-- C9: the submit control is disabled exactly while a request is in
flight, a submit event under a disabled control leaves the state
untouched (no duplicate dispatch), and every reachable state has at most
one outstanding request. -/
theorem single_inflight_request :
    (∀ s : ClientState, submitDisabled s = s.isLoading) ∧
    (∀ s : ClientState, submitDisabled s = true →
      step s Event.submit = s) ∧
    (∀ s : ClientState, Reachable s → s.pending.length ≤ 1) := by
  refine ⟨fun s => rfl, ?_, fun s h => (reachable_inv s h).2.1⟩
  intro s h
  simp only [submitDisabled] at h
  simp only [step]
  split_ifs with hn hf he
  · rfl
  · rfl
  · simp [h] at hf
  · simp [h] at hf

/-- Witness for C9: submitting while the sample login request is in
flight is a no-op, and the initial state has no outstanding request. -/
theorem single_inflight_request_witness :
    submitDisabled loginPendingState = loginPendingState.isLoading ∧
    step loginPendingState Event.submit = loginPendingState ∧
    initState.pending.length ≤ 1 :=
  ⟨single_inflight_request.1 loginPendingState,
   single_inflight_request.2.1 loginPendingState rfl,
   single_inflight_request.2.2 initState ⟨[], rfl⟩⟩

/-- C1 (amended): in every client form state exactly one of the four
views login, signup, forgot-password and reset-success is rendered, the
reset-success panel taking display priority; the two flags themselves
are however not mutually exclusive (see the counterexample). -/
theorem exactly_one_view_rendered (s : ClientState) :
    (successPanelShown s).toNat + (forgotFormShown s).toNat +
      (loginFormShown s).toNat + (signupFormShown s).toNat = 1 := by
  rcases s with ⟨tab, sfp, fd, errs, load, rs, ae, tok, pend, sc, nav⟩
  cases tab <;> cases sfp <;> cases rs <;> rfl

/-- Counterexample to C1 as stated: after a successful forgot-password
submission the client reaches a state in which showForgotPassword and
resetSuccess are both true, so the two flags are not mutually
exclusive. -/
theorem flags_both_true_reachable :
    Reachable (run initState
      [Event.clickForgot, Event.input FieldName.resetEmail "a@b.c",
       Event.submit, Event.respond (ApiOutcome.success "jwt")]) ∧
    (run initState
      [Event.clickForgot, Event.input FieldName.resetEmail "a@b.c",
       Event.submit,
       Event.respond (ApiOutcome.success "jwt")]).showForgotPassword
      = true ∧
    (run initState
      [Event.clickForgot, Event.input FieldName.resetEmail "a@b.c",
       Event.submit,
       Event.respond (ApiOutcome.success "jwt")]).resetSuccess = true :=
  ⟨⟨[Event.clickForgot, Event.input FieldName.resetEmail "a@b.c",
     Event.submit, Event.respond (ApiOutcome.success "jwt")], rfl⟩,
   by decide, by decide⟩

/-- Any step from a state whose forgot mode still has the login tab
active either keeps the view or moves along an admitted edge. -/
theorem view_step_edge (s : ClientState) (e : Event)
    (h1 : s.showForgotPassword = true → s.activeTab = Tab.login) :
    view (step s e) = view s ∨
      (view s, view (step s e)) ∈ allowedEdges := by
  cases e with
  | clickTab t =>
    simp only [step]
    split_ifs with hn hf
    · left; rfl
    · left; rfl
    · by_cases hrs : s.resetSuccess = true
      · left; simp [view, hrs]
      · have hrs2 : s.resetSuccess = false := by simpa using hrs
        have hsfp : s.showForgotPassword = false := by simpa using hf
        cases htab : s.activeTab <;> cases t <;>
          simp [view, hrs2, hsfp, htab, allowedEdges, claimedEdges]
  | clickForgot =>
    simp only [step]
    split_ifs with hn hf
    · left; rfl
    · right
      simp only [Bool.and_eq_true, Bool.not_eq_true', beq_iff_eq] at hf
      obtain ⟨⟨hsfp, hrs⟩, htab⟩ := hf
      simp [view, hsfp, hrs, htab, allowedEdges, claimedEdges]
    · left; rfl
  | clickBack =>
    simp only [step]
    split_ifs with hn hf
    · left; rfl
    · right
      by_cases hrs : s.resetSuccess = true
      · cases htab : s.activeTab <;>
          simp [view, hrs, htab, allowedEdges, claimedEdges]
      · have hrs2 : s.resetSuccess = false := by simpa using hrs
        have hsfp : s.showForgotPassword = true := by
          rcases (by simpa using hf :
              s.resetSuccess = true ∨ s.showForgotPassword = true) with
            h | h
          · exact absurd h hrs
          · exact h
        have htab := h1 hsfp
        simp [view, hrs2, hsfp, htab, allowedEdges, claimedEdges]
    · left; rfl
  | input f v =>
    simp only [step]
    split_ifs <;> (left; rfl)
  | submit =>
    simp only [step]
    split_ifs <;> (left; rfl)
  | respond o =>
    simp only [step]
    split_ifs with hn
    · left; rfl
    cases hp : s.pending with
    | nil => left; rfl
    | cons r rest =>
      cases o with
      | failure err => left; rfl
      | success tok =>
        cases r with
        | login a b => left; rfl
        | register a b c => left; rfl
        | forgotPassword a =>
          by_cases hrs : s.resetSuccess = true
          · left; simp [view, applyOutcome, hrs]
          · right
            have hrs2 : s.resetSuccess = false := by simpa using hrs
            by_cases hsfp : s.showForgotPassword = true
            · simp [view, applyOutcome, hrs2, hsfp, allowedEdges,
                claimedEdges]
            · have hsfp2 : s.showForgotPassword = false := by
                simpa using hsfp
              cases htab : s.activeTab <;>
                simp [view, applyOutcome, hrs2, hsfp2, htab,
                  allowedEdges, claimedEdges]

/-- C7 (amended): the machine starts in the Login view; every reachable
view change runs along one of the six listed transitions or one of the
three race transitions Login to ResetSuccess, Signup to ResetSuccess and
ResetSuccess to Signup (reachable when a back action, optionally
followed by a tab toggle, happens while a forgot-password request is in
flight and the request then succeeds); and every one of these nine
transitions is realizable from a reachable state. -/
theorem panel_transition_characterization :
    view initState = PanelView.login ∧
    (∀ (s : ClientState) (e : Event), Reachable s →
      view (step s e) ≠ view s →
      (view s, view (step s e)) ∈ allowedEdges) ∧
    (∀ p : PanelView × PanelView, p ∈ allowedEdges →
      ∃ (s : ClientState) (e : Event), Reachable s ∧ view s = p.1 ∧
        view (step s e) = p.2) := by
  refine ⟨rfl, ?_, ?_⟩
  · intro s e hs hne
    rcases view_step_edge s e (reachable_inv s hs).1 with h | h
    · exact absurd h hne
    · exact h
  · intro p hp
    simp only [allowedEdges, claimedEdges, List.mem_append,
      List.mem_cons, List.not_mem_nil, or_false] at hp
    rcases hp with (rfl | rfl | rfl | rfl | rfl | rfl) | (rfl | rfl | rfl)
    · exact ⟨run initState [], Event.clickTab Tab.signup,
        ⟨[], rfl⟩, by decide, by decide⟩
    · exact ⟨run initState [Event.clickTab Tab.signup],
        Event.clickTab Tab.login,
        ⟨[Event.clickTab Tab.signup], rfl⟩, by decide, by decide⟩
    · exact ⟨run initState [], Event.clickForgot,
        ⟨[], rfl⟩, by decide, by decide⟩
    · exact ⟨run initState [Event.clickForgot,
          Event.input FieldName.resetEmail "a@b.c", Event.submit],
        Event.respond (ApiOutcome.success "jwt"),
        ⟨[Event.clickForgot, Event.input FieldName.resetEmail "a@b.c",
          Event.submit], rfl⟩, by decide, by decide⟩
    · exact ⟨run initState [Event.clickForgot], Event.clickBack,
        ⟨[Event.clickForgot], rfl⟩, by decide, by decide⟩
    · exact ⟨run initState [Event.clickForgot,
          Event.input FieldName.resetEmail "a@b.c", Event.submit,
          Event.respond (ApiOutcome.success "jwt")], Event.clickBack,
        ⟨[Event.clickForgot, Event.input FieldName.resetEmail "a@b.c",
          Event.submit, Event.respond (ApiOutcome.success "jwt")], rfl⟩,
        by decide, by decide⟩
    · exact ⟨run initState [Event.clickForgot,
          Event.input FieldName.resetEmail "a@b.c", Event.submit,
          Event.clickBack], Event.respond (ApiOutcome.success "jwt"),
        ⟨[Event.clickForgot, Event.input FieldName.resetEmail "a@b.c",
          Event.submit, Event.clickBack], rfl⟩, by decide, by decide⟩
    · exact ⟨run initState [Event.clickForgot,
          Event.input FieldName.resetEmail "a@b.c", Event.submit,
          Event.clickBack, Event.clickTab Tab.signup],
        Event.respond (ApiOutcome.success "jwt"),
        ⟨[Event.clickForgot, Event.input FieldName.resetEmail "a@b.c",
          Event.submit, Event.clickBack, Event.clickTab Tab.signup],
          rfl⟩, by decide, by decide⟩
    · exact ⟨run initState [Event.clickForgot,
          Event.input FieldName.resetEmail "a@b.c", Event.submit,
          Event.clickBack, Event.clickTab Tab.signup,
          Event.respond (ApiOutcome.success "jwt")], Event.clickBack,
        ⟨[Event.clickForgot, Event.input FieldName.resetEmail "a@b.c",
          Event.submit, Event.clickBack, Event.clickTab Tab.signup,
          Event.respond (ApiOutcome.success "jwt")], rfl⟩,
        by decide, by decide⟩

/-- Witness for C7: the Login to ForgotPassword transition taken from
the initial state runs along an admitted edge. -/
theorem panel_transition_characterization_witness :
    (view initState, view (step initState Event.clickForgot))
      ∈ allowedEdges :=
  panel_transition_characterization.2.1 initState Event.clickForgot
    ⟨[], rfl⟩ (by decide)

/-- Counterexample to C7 as stated: with a forgot-password request in
flight, a back action returns the view to Login, and the subsequent
successful response then moves the view from Login directly to
ResetSuccess, a transition outside the listed six. -/
theorem forgot_race_extra_transition :
    Reachable (run initState [Event.clickForgot,
      Event.input FieldName.resetEmail "a@b.c", Event.submit,
      Event.clickBack]) ∧
    view (run initState [Event.clickForgot,
      Event.input FieldName.resetEmail "a@b.c", Event.submit,
      Event.clickBack]) = PanelView.login ∧
    view (step (run initState [Event.clickForgot,
      Event.input FieldName.resetEmail "a@b.c", Event.submit,
      Event.clickBack]) (Event.respond (ApiOutcome.success "jwt")))
      = PanelView.resetSuccess ∧
    (PanelView.login, PanelView.resetSuccess) ∉ claimedEdges :=
  ⟨⟨[Event.clickForgot, Event.input FieldName.resetEmail "a@b.c",
     Event.submit, Event.clickBack], rfl⟩,
   by decide, by decide, by decide⟩

end AuthApp
